import Mathlib

/-
Shallow embedding of the Applovin data-collection pipeline
(`AxonDataCollector` in `main.py`): the BigQuery ingestion gate
(`check_data_exists`, `delete_date_data`, `load_to_bigquery`), the HTTP
fetch-with-retry layer and pandas-style normalization
(`fetch_user_level_data`, `fetch_revenue_reporting_basic`,
`fetch_revenue_reporting_network`), and the orchestrators
(`collect_daily_data`, `backfill_data`).

External effects are made explicit:
* BigQuery storage is a list of (table name, row) entries; whether a
  query / delete / load job succeeds is an explicit environment flag
  (the source catches the corresponding exceptions).
* An HTTP exchange is an environment record holding the response to the
  first request and to the (at most one) retry request.
* Dates are integers (the YYYY-MM-DD formatting is a bijection that the
  source never branches on); `datetime.utcnow()` is a `now` parameter.
* pandas cell parsers (`pd.to_numeric`, `pd.to_datetime`) are modelled by
  simple concrete parsers; the pipeline logic only branches on whether a
  cell parses, never on the parsed value.
-/

namespace Axon

/-! ## String helpers (pandas `.str.strip/.str.lower/.str.replace`) -/

def isSpaceChar (c : Char) : Bool :=
  c = ' ' || c = '\t' || c = '\n' || c = '\r'

def trimChars (cs : List Char) : List Char :=
  ((cs.dropWhile isSpaceChar).reverse.dropWhile isSpaceChar).reverse

/-- Python `s.lower()` / pandas `.str.lower()`. -/
def pyLower (s : String) : String :=
  String.mk (s.toList.map Char.toLower)

/-- The user-level header normalization
`df.columns.str.strip().str.lower().str.replace(' ', '_')` (main.py:188). -/
def pyNormalizeCol (s : String) : String :=
  String.mk (((trimChars s.toList).map Char.toLower).map
    (fun c => if c = ' ' then '_' else c))

/-! ## Cell values and parsers -/

/-- A pandas cell value.  `vnan` is pandas NaN/NaT; `vnull` is Python `None`
(what `df.where(pd.notnull(df), None)` turns NaN into). -/
inductive Value where
  | vstr (s : String)
  | vnum (n : Int)
  | vbool (b : Bool)
  | vdate (d : Int)
  | vts (t : String)
  | vtime (t : Int)
  | vnan
  | vnull
deriving DecidableEq, Repr

/-- Model of pandas numeric parsing (`pd.to_numeric`): a nonempty digit
string parses, anything else fails.  The pipeline only branches on parse
success/failure. -/
def parseNumeric (s : String) : Option Int :=
  let cs := s.toList
  if !cs.isEmpty && cs.all Char.isDigit then
    some (Int.ofNat (cs.foldl (fun n c => n * 10 + (c.toNat - 48)) 0))
  else none

def splitDash (cs : List Char) : List (List Char) :=
  cs.foldr
    (fun c acc =>
      match acc with
      | [] => if c = '-' then [[], []] else [[c]]
      | g :: gs => if c = '-' then [] :: (g :: gs) else (c :: g) :: gs)
    [[]]

/-- Model of pandas timestamp parsing (`pd.to_datetime`): a Y-M-D shaped
digit string parses, anything else fails. -/
def parseTimestampOk (s : String) : Bool :=
  let ps := splitDash s.toList
  ps.length = 3 && ps.all (fun p => !p.isEmpty && p.all Char.isDigit)

/-- Model of `pd.to_datetime(s).dt.date` on a single cell: the parsed date
as an integer (digit concatenation), `none` if unparsable. -/
def parseDate (s : String) : Option Int :=
  if parseTimestampOk s then
    some (Int.ofNat ((s.toList.filter Char.isDigit).foldl
      (fun n c => n * 10 + (c.toNat - 48)) 0))
  else none

/-- Python `str(v)` on a pandas cell (used by `.astype(str)`). -/
def pyStrOf (v : Value) : String :=
  match v with
  | Value.vstr s => s
  | Value.vnum n => toString n
  | Value.vbool b => if b then "True" else "False"
  | Value.vdate d => toString d
  | Value.vts t => t
  | Value.vtime t => toString t
  | Value.vnan => "nan"
  | Value.vnull => "None"

/-- `pd.to_numeric(v, errors='coerce')` on one cell: unparsable ⇒ NaN. -/
def toNumericCoerce (v : Value) : Value :=
  match v with
  | Value.vstr s =>
      match parseNumeric s with
      | some n => Value.vnum n
      | none => Value.vnan
  | Value.vnum n => Value.vnum n
  | Value.vbool b => Value.vnum (if b then 1 else 0)
  | _ => Value.vnan

/-- `.fillna(0)` on one cell. -/
def fillna0 (v : Value) : Value :=
  match v with
  | Value.vnan => Value.vnum 0
  | v => v

/-- `pd.to_datetime(v, errors='coerce')` on one cell: unparsable ⇒ NaT. -/
def toDatetimeCoerce (v : Value) : Value :=
  match v with
  | Value.vstr s => if parseTimestampOk s then Value.vts s else Value.vnan
  | Value.vts t => Value.vts t
  | _ => Value.vnan

/-- `.astype(str).str.lower().isin(['true', '1', 'yes'])` on one cell. -/
def boolCoerce (v : Value) : Value :=
  Value.vbool (["true", "1", "yes"].contains (pyLower (pyStrOf v)))

/-- One step of `df.where(pd.notnull(df), None)`: NaN/NaT become `None`. -/
def whereNotNullValue (v : Value) : Value :=
  match v with
  | Value.vnan => Value.vnull
  | v => v

/-! ## CSV and DataFrame -/

/-- A parsed CSV body (`pd.read_csv(StringIO(text))`). -/
structure Csv where
  header : List String
  cells : List (List String)
deriving DecidableEq, Repr

/-- A row of a DataFrame: association list from column name to cell. -/
abbrev URow := List (String × Value)

structure DataFrame where
  columns : List String
  rows : List URow
deriving DecidableEq, Repr

def DataFrame.ofCsv (c : Csv) : DataFrame :=
  { columns := c.header
    rows := c.cells.map (fun r => c.header.zip (r.map Value.vstr)) }

/-- `df.rename(columns=f)` applied to every column. -/
def DataFrame.renameCols (df : DataFrame) (f : String → String) : DataFrame :=
  { columns := df.columns.map f
    rows := df.rows.map (fun r => r.map (fun p => (f p.1, p.2))) }

/-- `df[name] = v` with a scalar: overwrite the column if present,
otherwise append it. -/
def DataFrame.setCol (df : DataFrame) (name : String) (v : Value) : DataFrame :=
  if df.columns.contains name then
    { columns := df.columns
      rows := df.rows.map (fun r =>
        r.map (fun p => if p.1 == name then (p.1, v) else p)) }
  else
    { columns := df.columns ++ [name]
      rows := df.rows.map (fun r => r ++ [(name, v)]) }

/-- `df[name] = f(df[name])`: apply a cell transform to one column. -/
def DataFrame.coerceCol (df : DataFrame) (name : String) (f : Value → Value) :
    DataFrame :=
  { columns := df.columns
    rows := df.rows.map (fun r =>
      r.map (fun p => if p.1 == name then (p.1, f p.2) else p)) }

/-- Apply a cell transform to every cell (`df.where(pd.notnull(df), None)`). -/
def DataFrame.mapCells (df : DataFrame) (f : Value → Value) : DataFrame :=
  { columns := df.columns
    rows := df.rows.map (fun r => r.map (fun p => (p.1, f p.2))) }

def getCell (r : URow) (name : String) : Option Value :=
  (r.find? (fun p => p.1 == name)).map Prod.snd

/-! ## BigQuery storage model and the ingestion gate -/

/-- The warehouse: every persisted row, tagged with its table name. -/
abbrev Store := List (String × URow)

/-- Python truthiness of an optional string argument
(`application and platform` in main.py:62/97). -/
def strTruthy (o : Option String) : Bool :=
  match o with
  | none => false
  | some s => !(s == "")

/-- The WHERE clause used by both `check_data_exists` and
`delete_date_data`: per (date, application, platform) for the per-app
table when both are passed, per date alone otherwise. -/
def entryMatchesKey (table_name : String) (date : Int)
    (application platform : Option String) (e : String × URow) : Bool :=
  e.1 == table_name &&
  (if table_name == "user_level_ad_revenue"
      && strTruthy application && strTruthy platform then
    decide (getCell e.2 "report_date" = some (Value.vdate date)) &&
    decide (getCell e.2 "application"
      = some (Value.vstr (application.getD ""))) &&
    decide (getCell e.2 "platform" = some (Value.vstr (platform.getD "")))
  else
    decide (getCell e.2 "report_date" = some (Value.vdate date)))

/-- The `SELECT COUNT(*)` of `check_data_exists`. -/
def countForKey (store : Store) (table_name : String) (date : Int)
    (application platform : Option String) : Nat :=
  (store.filter (entryMatchesKey table_name date application platform)).length

/-- `check_data_exists` (main.py:51): `count > 0` when the query job
succeeds; `False` when it raises (the exception is caught). -/
def check_data_exists (store : Store) (table_name : String) (date : Int)
    (application platform : Option String) (queryOk : Bool) : Bool :=
  if queryOk then
    decide (0 < countForKey store table_name date application platform)
  else false

/-- `delete_date_data` (main.py:86): delete every row matching the key;
a failing delete job is caught and leaves the store unchanged. -/
def delete_date_data (store : Store) (table_name : String) (date : Int)
    (application platform : Option String) (deleteOk : Bool) : Store :=
  if deleteOk then
    store.filter (fun e => !(entryMatchesKey table_name date application platform e))
  else store

/-- Success flags for the three BigQuery jobs a single load may run. -/
structure LoadEnv where
  queryOk : Bool
  deleteOk : Bool
  insertOk : Bool
deriving DecidableEq, Repr

/-- What a single `load_to_bigquery` call did. -/
inductive LoadResult where
  | noData
  | skipped
  | written (didDelete : Bool) (insertOk : Bool)
deriving DecidableEq, Repr

/-- `load_to_bigquery` (main.py:424): skip on `None`/empty input; skip when
rows exist and `force_update` is false; delete-then-append when rows exist
and `force_update` is true; plain append otherwise.  A failing load job is
caught inside the function (nothing is re-raised). -/
def load_to_bigquery (store : Store) (df : Option DataFrame)
    (table_name : String) (date : Int) (force_update : Bool)
    (application platform : Option String) (env : LoadEnv) :
    Store × LoadResult :=
  match df with
  | none => (store, LoadResult.noData)
  | some d =>
    if d.rows.length = 0 then (store, LoadResult.noData)
    else
      let ex := check_data_exists store table_name date application platform
        env.queryOk
      if ex && !force_update then (store, LoadResult.skipped)
      else
        let store1 :=
          if ex && force_update then
            delete_date_data store table_name date application platform
              env.deleteOk
          else store
        if env.insertOk then
          (store1 ++ d.rows.map (fun r => (table_name, r)),
            LoadResult.written (ex && force_update) true)
        else (store1, LoadResult.written (ex && force_update) false)

/-! ## HTTP layer: responses, retry policy, fetchers -/

/-- The JSON body of the user-level metadata endpoint, together with the
HTTP status.  A field is `none` when absent from the JSON. -/
structure ULResponse where
  status : Nat
  ad_revenue_report_url : Option String
  url : Option String
  fb_estimated_revenue_url : Option String
deriving DecidableEq, Repr

/-- A response whose body is CSV text. -/
structure CsvResponse where
  status : Nat
  text : Csv
deriving DecidableEq, Repr

/-- The upstream's behaviour for one user-level fetch: the first response,
the response to the (at most one) retry, and the CSV download keyed by
URL. -/
structure ULEnv where
  resp1 : ULResponse
  resp2 : ULResponse
  csvResp : String → CsvResponse

/-- The upstream's behaviour for one aggregate fetch. -/
structure AggEnv where
  resp1 : CsvResponse
  resp2 : CsvResponse
deriving DecidableEq, Repr

/-- The status-code elif chain shared by all three fetchers
(main.py:145-158): 429 ⇒ retry once, 401/403 ⇒ give up, ≥500 ⇒ retry
once, anything else falls through to `raise_for_status`. -/
inductive RetryChoice where
  | useFirst
  | useSecond
  | authAbort
deriving DecidableEq, Repr

def retryChoice (status1 : Nat) : RetryChoice :=
  if status1 = 429 then RetryChoice.useSecond
  else if status1 = 401 then RetryChoice.authAbort
  else if status1 = 403 then RetryChoice.authAbort
  else if 500 ≤ status1 then RetryChoice.useSecond
  else RetryChoice.useFirst

/-- How many requests the metadata endpoint receives for one fetch. -/
def requestsMade (status1 : Nat) : Nat :=
  match retryChoice status1 with
  | RetryChoice.useSecond => 2
  | _ => 1

/-- `response.raise_for_status()`: succeeds iff the status is not 4xx/5xx. -/
def raiseOk (status : Nat) : Bool :=
  !(400 ≤ status && status < 600)

/-- The pointer-field priority of main.py:164-175:
`ad_revenue_report_url` > `url` > `fb_estimated_revenue_url`, with Python
truthiness (absent or empty string falls through).  Returns the
`data_source` label and the chosen URL. -/
def dataSourceOf (r : ULResponse) : Option (String × String) :=
  if strTruthy r.ad_revenue_report_url then
    some ("ad_revenue_report_url", r.ad_revenue_report_url.getD "")
  else if strTruthy r.url then
    some ("url", r.url.getD "")
  else if strTruthy r.fb_estimated_revenue_url then
    some ("fb_estimated_revenue_url", r.fb_estimated_revenue_url.getD "")
  else none

/-- The user-level column synonym mapping (main.py:191-208), applied to
already-normalized column names. -/
def mapULCol (c : String) : String :=
  if c == "date" || c == "timestamp" then "impression_timestamp"
  else if c == "ad_unit_id" || c == "adunitid" then "ad_unit_id"
  else if c == "ad_unit_name" || c == "adunitname" then "ad_unit_name"
  else if c == "ad_format" || c == "adformat" then "ad_format"
  else if c == "ad_placement" || c == "adplacement" then "ad_placement"
  else if c == "device_type" || c == "devicetype" then "device_type"
  else if c == "user_id" || c == "userid" then "user_id"
  else if c == "custom_data" || c == "customdata" then "custom_data"
  else c

/-- The normalization applied to a nonempty user-level CSV
(main.py:187-238): header normalization, synonym mapping, metadata
stamping, `data_type` from column shape, lenient coercions, and the final
NaN-to-None sweep. -/
def normalizeUserLevel (df0 : DataFrame) (date : Int)
    (platform application : String) (now : Int) (data_source : String) :
    DataFrame :=
  let df1 := (df0.renameCols pyNormalizeCol).renameCols mapULCol
  let df2 := ((((((df1.setCol "report_date" (Value.vdate date)).setCol
    "application" (Value.vstr application)).setCol
    "package_name" (Value.vstr application)).setCol
    "platform" (Value.vstr platform)).setCol
    "loaded_at" (Value.vtime now)).setCol
    "data_source" (Value.vstr data_source))
  let df3 :=
    if df2.columns.contains "impressions" then
      df2.setCol "data_type" (Value.vstr "user_aggregated")
    else df2.setCol "data_type" (Value.vstr "impression")
  let df4 :=
    if df3.columns.contains "impression_timestamp" then
      df3.coerceCol "impression_timestamp" toDatetimeCoerce
    else df3
  let df5 :=
    if df4.columns.contains "revenue" then
      df4.coerceCol "revenue" toNumericCoerce
    else df4
  let df6 :=
    if df5.columns.contains "impressions" then
      df5.coerceCol "impressions" (fun v => fillna0 (toNumericCoerce v))
    else df5
  df6.mapCells whereNotNullValue

/-- The body of `fetch_user_level_data` from `raise_for_status` on
(main.py:160-242), given the metadata response actually used. -/
def fetchUserLevelFrom (env : ULEnv) (r : ULResponse) (date : Int)
    (platform application : String) (now : Int) : Option DataFrame :=
  if !raiseOk r.status then none
  else
    match dataSourceOf r with
    | none => none
    | some (data_source, csv_url) =>
      let cr := env.csvResp csv_url
      if !raiseOk cr.status then none
      else
        let df0 := DataFrame.ofCsv cr.text
        if df0.rows.length = 0 then none
        else some (normalizeUserLevel df0 date platform application now
          data_source)

/-- `fetch_user_level_data` (main.py:119).  The `aggregated` flag only
changes the request parameters, which the environment already accounts
for.  Every failure path returns `none` (the source catches all
exceptions and returns `None`). -/
def fetch_user_level_data (env : ULEnv) (date : Int)
    (platform application : String) (aggregated : Bool) (now : Int) :
    Option DataFrame :=
  match retryChoice env.resp1.status with
  | RetryChoice.authAbort => none
  | RetryChoice.useFirst =>
      fetchUserLevelFrom env env.resp1 date platform application now
  | RetryChoice.useSecond =>
      fetchUserLevelFrom env env.resp2 date platform application now

/-- `pd.to_datetime(df['report_date']).dt.date` without `errors='coerce'`
(main.py:305): raises — hence the whole fetch returns `None` — as soon as
one cell does not parse. -/
def strictDateCell (p : String × Value) : Option (String × Value) :=
  if p.1 == "report_date" then
    match p.2 with
    | Value.vstr s => (parseDate s).map (fun d => (p.1, Value.vdate d))
    | Value.vdate d => some (p.1, Value.vdate d)
    | _ => none
  else some p

def strictDateCol (df : DataFrame) : Option DataFrame :=
  (df.rows.mapM (fun (r : URow) => r.mapM strictDateCell)).map
    (fun rs => { columns := df.columns, rows := rs })

/-- Guarded numeric coercion `if c in df.columns: df[c] = to_numeric
(errors='coerce').fillna(0)` shared by the aggregate fetchers. -/
def numFill0Col (df : DataFrame) (c : String) : DataFrame :=
  if df.columns.contains c then
    df.coerceCol c (fun v => fillna0 (toNumericCoerce v))
  else df

/-- Guarded boolean coercion for the aggregate fetchers. -/
def boolCol (df : DataFrame) (c : String) : DataFrame :=
  if df.columns.contains c then df.coerceCol c boolCoerce else df

/-- The normalization of a nonempty basic aggregate CSV (main.py:293-326):
lower-case headers (no trim, no space replacement), `day → report_date`
rename, metadata stamping, strict date parse, lenient numeric and boolean
coercions. -/
def normalizeAggBasic (df0 : DataFrame) (now : Int) : Option DataFrame :=
  let df1 := (df0.renameCols pyLower).renameCols
    (fun c => if c == "day" then "report_date" else c)
  let df2 := (df1.setCol "query_type" (Value.vstr "basic")).setCol
    "loaded_at" (Value.vtime now)
  if df2.columns.contains "report_date" then
    match strictDateCol df2 with
    | none => none
    | some df3 =>
      let df4 := numFill0Col (numFill0Col (numFill0Col (numFill0Col df3
        "impressions") "estimated_revenue") "ecpm") "requests"
      some (boolCol (boolCol df4 "has_idfa") "max_ad_unit_test")
  else none

/-- The normalization of a nonempty network-detail aggregate CSV
(main.py:378-411). -/
def normalizeAggNetwork (df0 : DataFrame) (now : Int) : Option DataFrame :=
  let df1 := (df0.renameCols pyLower).renameCols
    (fun c => if c == "day" then "report_date" else c)
  let df2 := (df1.setCol "query_type" (Value.vstr "network_detail")).setCol
    "loaded_at" (Value.vtime now)
  if df2.columns.contains "report_date" then
    match strictDateCol df2 with
    | none => none
    | some df3 =>
      let df4 := numFill0Col (numFill0Col (numFill0Col (numFill0Col
        (numFill0Col (numFill0Col df3 "impressions") "estimated_revenue")
        "ecpm") "attempts") "responses") "fill_rate"
      some (boolCol df4 "has_idfa")
  else none

def fetchAggFrom (r : CsvResponse) (now : Int)
    (normalize : DataFrame → Int → Option DataFrame) : Option DataFrame :=
  if !raiseOk r.status then none
  else
    let df0 := DataFrame.ofCsv r.text
    if df0.rows.length = 0 then none
    else normalize df0 now

/-- `fetch_revenue_reporting_basic` (main.py:251). -/
def fetch_revenue_reporting_basic (env : AggEnv) (date : Int) (now : Int) :
    Option DataFrame :=
  match retryChoice env.resp1.status with
  | RetryChoice.authAbort => none
  | RetryChoice.useFirst => fetchAggFrom env.resp1 now normalizeAggBasic
  | RetryChoice.useSecond => fetchAggFrom env.resp2 now normalizeAggBasic

/-- `fetch_revenue_reporting_network` (main.py:335). -/
def fetch_revenue_reporting_network (env : AggEnv) (date : Int) (now : Int) :
    Option DataFrame :=
  match retryChoice env.resp1.status with
  | RetryChoice.authAbort => none
  | RetryChoice.useFirst => fetchAggFrom env.resp1 now normalizeAggNetwork
  | RetryChoice.useSecond => fetchAggFrom env.resp2 now normalizeAggNetwork

/-! ## Orchestrator: `collect_daily_data` and `backfill_data` -/

/-- One validated entry of `APPS_CONFIG`. -/
structure AppCfg where
  platform : String
  package : String
deriving DecidableEq, Repr

/-- The `stats` dict of `collect_daily_data` (main.py:496-502). -/
structure ULStats where
  user_level_success : Nat
  user_level_failed : Nat
  user_level_no_data : Nat
  revenue_basic_success : Bool
  revenue_network_success : Bool
deriving DecidableEq, Repr

/-- The external world for one daily run: per-app HTTP and load-job
behaviour (indexed by position in the app list), plus the two aggregate
exchanges. -/
structure DayEnv where
  ulEnv : Nat → ULEnv
  ulLoad : Nat → LoadEnv
  basicEnv : AggEnv
  basicLoad : LoadEnv
  networkEnv : AggEnv
  networkLoad : LoadEnv

/-- The per-app loop of `collect_daily_data` (main.py:506-529): fetch,
load on a non-`None` frame and count a success, count no-data otherwise.
The `except` branch (`user_level_failed`) can only catch an exception
escaping `fetch_user_level_data` or `load_to_bigquery`, and both catch
all their exceptions internally, so it never fires; the counter is kept
so the returned statistics have the source's shape. -/
def userLevelPhase (date now : Int) (force_update : Bool) (env : DayEnv) :
    List AppCfg → Nat → Store → Store × Nat × Nat × Nat
  | [], _, store => (store, 0, 0, 0)
  | a :: rest, i, store =>
    match fetch_user_level_data (env.ulEnv i) date a.platform a.package
      false now with
    | some df =>
      let s1 := (load_to_bigquery store (some df) "user_level_ad_revenue"
        date force_update (some a.package) (some a.platform)
        (env.ulLoad i)).1
      let r := userLevelPhase date now force_update env rest (i + 1) s1
      (r.1, r.2.1 + 1, r.2.2.1, r.2.2.2)
    | none =>
      let r := userLevelPhase date now force_update env rest (i + 1) store
      (r.1, r.2.1, r.2.2.1, r.2.2.2 + 1)

/-- `collect_daily_data` (main.py:466): `none` models the early
`{'success': False, 'message': ...}` return when the app list is empty;
otherwise the per-app user-level loop runs, then the two aggregate
reports, each counted successful exactly when its fetch returned a
frame. -/
def collect_daily_data (store : Store) (date now : Int)
    (apps : List AppCfg) (force_update : Bool) (env : DayEnv) :
    Store × Option ULStats :=
  if apps.isEmpty then (store, none)
  else
    let ul := userLevelPhase date now force_update env apps 0 store
    let sBasic :=
      match fetch_revenue_reporting_basic env.basicEnv date now with
      | some df =>
        ((load_to_bigquery ul.1 (some df) "revenue_reporting" date
          force_update none none env.basicLoad).1, true)
      | none => (ul.1, false)
    let sNet :=
      match fetch_revenue_reporting_network env.networkEnv date now with
      | some df =>
        ((load_to_bigquery sBasic.1 (some df) "revenue_reporting" date
          force_update none none env.networkLoad).1, true)
      | none => (sBasic.1, false)
    (sNet.1, some
      { user_level_success := ul.2.1
        user_level_failed := ul.2.2.1
        user_level_no_data := ul.2.2.2
        revenue_basic_success := sBasic.2
        revenue_network_success := sNet.2 })

/-- The success test of `backfill_data` (main.py:597-599): a truthy stats
dict with at least one of the three success indicators set.  The empty
`{'success': False, ...}` early-return dict is truthy but carries none of
the three keys, so it counts as a failed day. -/
def daySucceeded (r : Option ULStats) : Bool :=
  match r with
  | none => false
  | some st =>
    decide (0 < st.user_level_success) || st.revenue_basic_success
      || st.revenue_network_success

/-- The `for i in range(days, 0, -1)` loop of `backfill_data`
(main.py:586-606), processing `today - i` and counting down, so the
oldest day first.  Returns the final store, the success-day and
failed-day counts, and the per-day log in processing order. -/
def backfillLoop (today now : Int) (apps : List AppCfg)
    (env : Nat → DayEnv) : Nat → Store → Store × Nat × Nat ×
    List (Int × Option ULStats)
  | 0, store => (store, 0, 0, [])
  | Nat.succ k, store =>
    let date := today - (Int.ofNat (k + 1))
    let day := collect_daily_data store date now apps false (env (k + 1))
    let rest := backfillLoop today now apps env k day.1
    if daySucceeded day.2 then
      (rest.1, rest.2.1 + 1, rest.2.2.1, (date, day.2) :: rest.2.2.2)
    else
      (rest.1, rest.2.1, rest.2.2.1 + 1, (date, day.2) :: rest.2.2.2)

/-- `backfill_data` (main.py:562): replay the daily pipeline for the
`days` days preceding `today`, oldest first, always with
`force_update=False`. -/
def backfill_data (store : Store) (days : Nat) (today now : Int)
    (apps : List AppCfg) (env : Nat → DayEnv) :
    Store × Nat × Nat × List (Int × Option ULStats) :=
  backfillLoop today now apps env days store

/-! ## Helper lemmas -/

lemma countForKey_pos_of_mem {store : Store} {table_name : String}
    {date : Int} {application platform : Option String}
    (e : String × URow) (he : e ∈ store)
    (hm : entryMatchesKey table_name date application platform e = true) :
    0 < countForKey store table_name date application platform := by
  have hmem : e ∈ store.filter
      (entryMatchesKey table_name date application platform) :=
    List.mem_filter.2 ⟨he, hm⟩
  unfold countForKey
  exact List.length_pos.2 (List.ne_nil_of_mem hmem)

/-- A `force_update=false` load that reported `written false true` appended
the batch to an untouched store. -/
lemma load_written_store (s : Store) (d : DataFrame) (table_name : String)
    (date : Int) (application platform : Option String) (e : LoadEnv)
    (hw : (load_to_bigquery s (some d) table_name date false application
      platform e).2 = LoadResult.written false true) :
    load_to_bigquery s (some d) table_name date false application platform e
      = (s ++ d.rows.map (fun r => (table_name, r)),
         LoadResult.written false true) := by
  unfold load_to_bigquery at hw ⊢
  by_cases h0 : d.rows.length = 0
  · simp [h0] at hw
  · by_cases hex : check_data_exists s table_name date application platform
      e.queryOk
    · simp [h0, hex] at hw
    · cases hins : e.insertOk
      · simp [h0, hex, hins] at hw
      · simp [h0, hex, hins]

/-! ## C1 -/

/-- C1: if the first `force_update=false` load for an IngestionKey wrote
its rows (every batch row carrying the key), a second
`force_update=false` load for the same key is a pure no-op: the store is
returned unchanged and the outcome is a skip (or the empty-input early
return), so no delete and no insert run and the row count for the key is
unchanged. -/
theorem c1_second_run_is_noop
    (s0 : Store) (df df2 : DataFrame) (table_name : String) (date : Int)
    (application platform : Option String) (e1 e2 : LoadEnv)
    (hmatch : ∀ r ∈ df.rows,
      entryMatchesKey table_name date application platform (table_name, r)
        = true)
    (hw : (load_to_bigquery s0 (some df) table_name date false application
      platform e1).2 = LoadResult.written false true)
    (hq2 : e2.queryOk = true) :
    load_to_bigquery
        (load_to_bigquery s0 (some df) table_name date false application
          platform e1).1
        (some df2) table_name date false application platform e2
      = ((load_to_bigquery s0 (some df) table_name date false application
          platform e1).1,
         if df2.rows.length = 0 then LoadResult.noData
         else LoadResult.skipped) := by
  have hkey := load_written_store s0 df table_name date application platform
    e1 hw
  have hne : df.rows ≠ [] := by
    intro h
    rw [load_to_bigquery] at hw
    simp [h] at hw
  obtain ⟨r, hr⟩ := List.exists_mem_of_ne_nil df.rows hne
  have hcnt : 0 < countForKey
      (load_to_bigquery s0 (some df) table_name date false application
        platform e1).1 table_name date application platform := by
    apply countForKey_pos_of_mem (table_name, r) _ (hmatch r hr)
    rw [hkey]
    exact List.mem_append_right _ (List.mem_map_of_mem _ hr)
  have hchk : check_data_exists
      (load_to_bigquery s0 (some df) table_name date false application
        platform e1).1 table_name date application platform e2.queryOk
        = true := by
    unfold check_data_exists
    rw [hq2]
    simp [hcnt]
  rw [load_to_bigquery]
  by_cases h2 : df2.rows.length = 0
  · simp [h2]
  · simp [h2, hchk]

/-- Concrete run for C1: one user-level row written into an empty store,
then reloaded with `force_update=false`. -/
def c1df : DataFrame :=
  { columns := ["report_date", "application", "platform"]
    rows := [[("report_date", Value.vdate 1),
              ("application", Value.vstr "com.example.app"),
              ("platform", Value.vstr "android")]] }

theorem c1_second_run_is_noop_witness :
    load_to_bigquery
        (load_to_bigquery [] (some c1df) "user_level_ad_revenue" 1 false
          (some "com.example.app") (some "android") ⟨true, true, true⟩).1
        (some c1df) "user_level_ad_revenue" 1 false
        (some "com.example.app") (some "android") ⟨true, true, true⟩
      = ((load_to_bigquery [] (some c1df) "user_level_ad_revenue" 1 false
          (some "com.example.app") (some "android") ⟨true, true, true⟩).1,
         if c1df.rows.length = 0 then LoadResult.noData
         else LoadResult.skipped) :=
  c1_second_run_is_noop [] c1df c1df "user_level_ad_revenue" 1
    (some "com.example.app") (some "android") ⟨true, true, true⟩
    ⟨true, true, true⟩ (by decide) (by decide) (by decide)

/-! ## C2 -/

/-- C2: a `force_update=true` load for a key with existing rows (all three
BigQuery jobs succeeding) rewrites the store to exactly: every row NOT
matching the key, unchanged, followed by the new batch.  Hence the old
rows for the key are deleted (precisely those matching the key's WHERE
clause — same `report_date`, `application`, `platform` for the per-app
table), the new batch is present, and rows of every other IngestionKey
are untouched; the rows matching the key afterwards are exactly the new
batch's. -/
theorem c2_force_update_replaces
    (s : Store) (d : DataFrame) (table_name : String) (date : Int)
    (application platform : Option String) (e : LoadEnv)
    (hq : e.queryOk = true) (hdel : e.deleteOk = true)
    (hins : e.insertOk = true)
    (hex : 0 < countForKey s table_name date application platform)
    (hrows : d.rows ≠ []) :
    load_to_bigquery s (some d) table_name date true application platform e
      = (s.filter
          (fun x => !(entryMatchesKey table_name date application platform x))
          ++ d.rows.map (fun r => (table_name, r)),
         LoadResult.written true true)
    ∧ ((load_to_bigquery s (some d) table_name date true application platform
        e).1.filter (entryMatchesKey table_name date application platform))
      = (d.rows.map (fun r => (table_name, r))).filter
          (entryMatchesKey table_name date application platform) := by
  have h0 : ¬ d.rows.length = 0 := by
    simpa [List.length_eq_zero] using hrows
  have hchk : check_data_exists s table_name date application platform
      e.queryOk = true := by
    unfold check_data_exists
    rw [hq]
    simp [hex]
  have hmain : load_to_bigquery s (some d) table_name date true application
      platform e
      = (s.filter
          (fun x => !(entryMatchesKey table_name date application platform x))
          ++ d.rows.map (fun r => (table_name, r)),
         LoadResult.written true true) := by
    rw [load_to_bigquery]
    simp [h0, hchk, delete_date_data, hdel, hins]
  refine ⟨hmain, ?_⟩
  rw [hmain]
  rw [List.filter_append, List.filter_filter]
  simp

theorem c2_force_update_replaces_witness :
    load_to_bigquery
        [("user_level_ad_revenue",
           [("report_date", Value.vdate 1),
            ("application", Value.vstr "com.example.app"),
            ("platform", Value.vstr "android"),
            ("revenue", Value.vnum 3)]),
         ("user_level_ad_revenue",
           [("report_date", Value.vdate 1),
            ("application", Value.vstr "com.other.app"),
            ("platform", Value.vstr "ios")]),
         ("revenue_reporting",
           [("report_date", Value.vdate 1)])]
        (some c1df) "user_level_ad_revenue" 1 true
        (some "com.example.app") (some "android") ⟨true, true, true⟩
      = ([("user_level_ad_revenue",
           [("report_date", Value.vdate 1),
            ("application", Value.vstr "com.other.app"),
            ("platform", Value.vstr "ios")]),
          ("revenue_reporting",
           [("report_date", Value.vdate 1)]),
          ("user_level_ad_revenue",
           [("report_date", Value.vdate 1),
            ("application", Value.vstr "com.example.app"),
            ("platform", Value.vstr "android")])],
         LoadResult.written true true)
    ∧ ((load_to_bigquery
        [("user_level_ad_revenue",
           [("report_date", Value.vdate 1),
            ("application", Value.vstr "com.example.app"),
            ("platform", Value.vstr "android"),
            ("revenue", Value.vnum 3)]),
         ("user_level_ad_revenue",
           [("report_date", Value.vdate 1),
            ("application", Value.vstr "com.other.app"),
            ("platform", Value.vstr "ios")]),
         ("revenue_reporting",
           [("report_date", Value.vdate 1)])]
        (some c1df) "user_level_ad_revenue" 1 true
        (some "com.example.app") (some "android")
        ⟨true, true, true⟩).1.filter
          (entryMatchesKey "user_level_ad_revenue" 1
            (some "com.example.app") (some "android")))
      = (c1df.rows.map (fun r => ("user_level_ad_revenue", r))).filter
          (entryMatchesKey "user_level_ad_revenue" 1
            (some "com.example.app") (some "android")) :=
  c2_force_update_replaces _ c1df "user_level_ad_revenue" 1
    (some "com.example.app") (some "android") ⟨true, true, true⟩
    (by decide) (by decide) (by decide) (by decide) (by decide)

/-! ## C10 -/

/-- C10: when the existence query fails, `check_data_exists` reports
`False`, so a `force_update=false` load proceeds to append the batch —
no skip, no abort — whatever the store already holds for the key. -/
theorem c10_query_error_means_insert
    (s : Store) (d : DataFrame) (table_name : String) (date : Int)
    (application platform : Option String) (e : LoadEnv)
    (hq : e.queryOk = false) (hins : e.insertOk = true)
    (hrows : d.rows ≠ []) :
    check_data_exists s table_name date application platform e.queryOk
      = false
    ∧ load_to_bigquery s (some d) table_name date false application platform
        e
      = (s ++ d.rows.map (fun r => (table_name, r)),
         LoadResult.written false true) := by
  have h0 : ¬ d.rows.length = 0 := by
    simpa [List.length_eq_zero] using hrows
  have hchk : check_data_exists s table_name date application platform
      e.queryOk = false := by
    unfold check_data_exists
    rw [hq]
    simp
  refine ⟨hchk, ?_⟩
  rw [load_to_bigquery]
  simp [h0, hchk, hins]

theorem c10_query_error_means_insert_witness :
    check_data_exists
        [("user_level_ad_revenue",
           [("report_date", Value.vdate 1),
            ("application", Value.vstr "com.example.app"),
            ("platform", Value.vstr "android")])]
        "user_level_ad_revenue" 1 (some "com.example.app") (some "android")
        (LoadEnv.mk false true true).queryOk = false
    ∧ load_to_bigquery
        [("user_level_ad_revenue",
           [("report_date", Value.vdate 1),
            ("application", Value.vstr "com.example.app"),
            ("platform", Value.vstr "android")])]
        (some c1df) "user_level_ad_revenue" 1 false
        (some "com.example.app") (some "android") ⟨false, true, true⟩
      = ([("user_level_ad_revenue",
           [("report_date", Value.vdate 1),
            ("application", Value.vstr "com.example.app"),
            ("platform", Value.vstr "android")]),
          ("user_level_ad_revenue",
           [("report_date", Value.vdate 1),
            ("application", Value.vstr "com.example.app"),
            ("platform", Value.vstr "android")])],
         LoadResult.written false true) :=
  c10_query_error_means_insert _ c1df "user_level_ad_revenue" 1
    (some "com.example.app") (some "android") ⟨false, true, true⟩
    (by decide) (by decide) (by decide)

/-! ## C4 -/

/-- A one-app user-level phase whose fetch returns `None` counts one
no-data source, runs no load, and leaves the store untouched. -/
lemma userLevelPhase_single_none (date now : Int) (f : Bool)
    (denv : DayEnv) (a : AppCfg) (i : Nat) (store : Store)
    (h : fetch_user_level_data (denv.ulEnv i) date a.platform a.package
      false now = none) :
    userLevelPhase date now f denv [a] i store = (store, 0, 0, 1) := by
  unfold userLevelPhase
  rw [h]
  rfl

/-- C4 (amended): a 401 or 403 on the first attempt makes the fetcher
give up without a retry (one request issued) and return `None`, so no
Loader call happens for that source — but `collect_daily_data` counts the
`None` under `user_level_no_data`, not `user_level_failed` (the failed
counter only catches exceptions, and the fetcher swallows all of its
exceptions). -/
theorem c4_auth_error_no_retry_counted_no_data
    (env : ULEnv) (date : Int) (plat app : String) (agg : Bool) (now : Int)
    (h : env.resp1.status = 401 ∨ env.resp1.status = 403) :
    fetch_user_level_data env date plat app agg now = none
    ∧ requestsMade env.resp1.status = 1
    ∧ ∀ (denv : DayEnv) (a : AppCfg) (i : Nat) (store : Store) (f : Bool),
        denv.ulEnv i = env → a.platform = plat → a.package = app →
        userLevelPhase date now f denv [a] i store = (store, 0, 0, 1) := by
  have hch : retryChoice env.resp1.status = RetryChoice.authAbort := by
    rcases h with h | h <;> rw [h] <;> rfl
  have hfetch : ∀ agg2 : Bool,
      fetch_user_level_data env date plat app agg2 now = none := by
    intro agg2
    unfold fetch_user_level_data
    rw [hch]
  refine ⟨hfetch agg, ?_, ?_⟩
  · unfold requestsMade
    rw [hch]
  · intro denv a i store f h1 h2 h3
    apply userLevelPhase_single_none
    rw [h1, h2, h3]
    exact hfetch false

/-- Concrete environment for C4: the metadata endpoint answers 401. -/
def c4Env : ULEnv :=
  { resp1 := { status := 401, ad_revenue_report_url := none, url := none
               fb_estimated_revenue_url := none }
    resp2 := { status := 200, ad_revenue_report_url := none, url := none
               fb_estimated_revenue_url := none }
    csvResp := fun _ => { status := 200, text := { header := [], cells := [] } } }

def c4Day : DayEnv :=
  { ulEnv := fun _ => c4Env
    ulLoad := fun _ => ⟨true, true, true⟩
    basicEnv := ⟨⟨401, ⟨[], []⟩⟩, ⟨200, ⟨[], []⟩⟩⟩
    basicLoad := ⟨true, true, true⟩
    networkEnv := ⟨⟨401, ⟨[], []⟩⟩, ⟨200, ⟨[], []⟩⟩⟩
    networkLoad := ⟨true, true, true⟩ }

theorem c4_auth_error_no_retry_counted_no_data_witness :
    fetch_user_level_data c4Env 1 "android" "com.example.app" false 0 = none
    ∧ requestsMade c4Env.resp1.status = 1
    ∧ userLevelPhase 1 0 false c4Day [⟨"android", "com.example.app"⟩] 0 []
        = ([], 0, 0, 1) :=
  ⟨(c4_auth_error_no_retry_counted_no_data c4Env 1 "android"
      "com.example.app" false 0 (Or.inl (by decide))).1,
   (c4_auth_error_no_retry_counted_no_data c4Env 1 "android"
      "com.example.app" false 0 (Or.inl (by decide))).2.1,
   (c4_auth_error_no_retry_counted_no_data c4Env 1 "android"
      "com.example.app" false 0 (Or.inl (by decide))).2.2 c4Day
      ⟨"android", "com.example.app"⟩ 0 [] false rfl rfl rfl⟩

/-- C4 counterexample: a run over one app whose only upstream answer is a
401 ends with `user_level_failed = 0` and `user_level_no_data = 1` — the
auth failure is counted as a no-data source, contradicting the claim that
it lands under `user_level_failed`. -/
theorem c4_counterexample :
    (collect_daily_data [] 1 0 [⟨"android", "com.example.app"⟩] false
        c4Day).2
      = some { user_level_success := 0, user_level_failed := 0
               user_level_no_data := 1, revenue_basic_success := false
               revenue_network_success := false }
    ∧ (collect_daily_data [] 1 0 [⟨"android", "com.example.app"⟩] false
        c4Day).1 = [] := by
  constructor <;> rfl

/-! ## C7 -/

/-- C7: a user-level response carrying none of the three pointer fields,
or a CSV that parses to zero rows, is the Empty result: the fetch returns
`None`, so the per-app loop performs no Loader call (store unchanged) and
counts the app under `user_level_no_data`, not under `user_level_failed`. -/
theorem c7_empty_is_no_data (date now : Int) (plat app : String)
    (agg : Bool) :
    (∀ env : ULEnv, env.resp1.status = 200 →
      env.resp1.ad_revenue_report_url = none → env.resp1.url = none →
      env.resp1.fb_estimated_revenue_url = none →
      fetch_user_level_data env date plat app agg now = none)
    ∧ (∀ (env : ULEnv) (ds u : String) (hdr : List String),
      env.resp1.status = 200 →
      dataSourceOf env.resp1 = some (ds, u) →
      env.csvResp u = ⟨200, ⟨hdr, []⟩⟩ →
      fetch_user_level_data env date plat app agg now = none)
    ∧ (∀ (denv : DayEnv) (a : AppCfg) (i : Nat) (store : Store) (f : Bool),
      fetch_user_level_data (denv.ulEnv i) date a.platform a.package false
        now = none →
      userLevelPhase date now f denv [a] i store = (store, 0, 0, 1)) := by
  refine ⟨?_, ?_, ?_⟩
  · intro env hst h1 h2 h3
    unfold fetch_user_level_data
    rw [hst]
    show fetchUserLevelFrom env env.resp1 date plat app now = none
    unfold fetchUserLevelFrom
    rw [hst]
    simp [dataSourceOf, h1, h2, h3, strTruthy, raiseOk]
  · intro env ds u hdr hst hds hcsv
    unfold fetch_user_level_data
    rw [hst]
    show fetchUserLevelFrom env env.resp1 date plat app now = none
    unfold fetchUserLevelFrom
    rw [hst, hds]
    simp [raiseOk, hcsv, DataFrame.ofCsv]
  · intro denv a i store f h
    exact userLevelPhase_single_none date now f denv a i store h

/-- Concrete environment for C7: a 200 whose JSON has no pointer field. -/
def c7Env : ULEnv :=
  { resp1 := { status := 200, ad_revenue_report_url := none, url := none
               fb_estimated_revenue_url := none }
    resp2 := { status := 200, ad_revenue_report_url := none, url := none
               fb_estimated_revenue_url := none }
    csvResp := fun _ => { status := 200, text := { header := [], cells := [] } } }

/-- Concrete environment for C7: a valid pointer whose CSV has no rows. -/
def c7EnvZero : ULEnv :=
  { resp1 := { status := 200
               ad_revenue_report_url := some "https://s3/report.csv"
               url := none, fb_estimated_revenue_url := none }
    resp2 := { status := 200, ad_revenue_report_url := none, url := none
               fb_estimated_revenue_url := none }
    csvResp := fun _ =>
      { status := 200, text := { header := ["Date", "Revenue"], cells := [] } } }

def c7Day : DayEnv :=
  { ulEnv := fun _ => c7Env
    ulLoad := fun _ => ⟨true, true, true⟩
    basicEnv := ⟨⟨401, ⟨[], []⟩⟩, ⟨200, ⟨[], []⟩⟩⟩
    basicLoad := ⟨true, true, true⟩
    networkEnv := ⟨⟨401, ⟨[], []⟩⟩, ⟨200, ⟨[], []⟩⟩⟩
    networkLoad := ⟨true, true, true⟩ }

theorem c7_empty_is_no_data_witness :
    fetch_user_level_data c7Env 1 "android" "com.example.app" false 0 = none
    ∧ fetch_user_level_data c7EnvZero 1 "android" "com.example.app" false 0
        = none
    ∧ userLevelPhase 1 0 false c7Day [⟨"android", "com.example.app"⟩] 0 []
        = ([], 0, 0, 1) :=
  ⟨(c7_empty_is_no_data 1 0 "android" "com.example.app" false).1 c7Env
      rfl rfl rfl rfl,
   (c7_empty_is_no_data 1 0 "android" "com.example.app" false).2.1 c7EnvZero
      "ad_revenue_report_url" "https://s3/report.csv" ["Date", "Revenue"]
      rfl (by decide) rfl,
   (c7_empty_is_no_data 1 0 "android" "com.example.app" false).2.2 c7Day
      ⟨"android", "com.example.app"⟩ 0 [] false (by decide)⟩

/-! ## C6 -/

/-- C6: an upstream interaction answering 429 on the first attempt and
200 on the single retry produces exactly the result of an interaction
answering 200 immediately (the sleep has no observable effect in the
model), for the user-level fetcher and for both aggregate fetchers. -/
theorem c6_retry_on_429_transparent
    (env1 env2 : ULEnv) (a1 a2 b1 b2 : AggEnv)
    (date : Int) (plat app : String) (agg : Bool) (now : Int)
    (h1 : env1.resp1.status = 429) (h2 : env1.resp2 = env2.resp1)
    (h3 : env2.resp1.status = 200) (h4 : env1.csvResp = env2.csvResp)
    (ha1 : a1.resp1.status = 429) (ha2 : a1.resp2 = a2.resp1)
    (ha3 : a2.resp1.status = 200)
    (hb1 : b1.resp1.status = 429) (hb2 : b1.resp2 = b2.resp1)
    (hb3 : b2.resp1.status = 200) :
    fetch_user_level_data env1 date plat app agg now
      = fetch_user_level_data env2 date plat app agg now
    ∧ fetch_revenue_reporting_basic a1 date now
      = fetch_revenue_reporting_basic a2 date now
    ∧ fetch_revenue_reporting_network b1 date now
      = fetch_revenue_reporting_network b2 date now := by
  refine ⟨?_, ?_, ?_⟩
  · unfold fetch_user_level_data
    rw [h1, h3]
    show fetchUserLevelFrom env1 env1.resp2 date plat app now
      = fetchUserLevelFrom env2 env2.resp1 date plat app now
    rw [h2]
    unfold fetchUserLevelFrom
    rw [h4]
  · unfold fetch_revenue_reporting_basic
    rw [ha1, ha3]
    show fetchAggFrom a1.resp2 now normalizeAggBasic
      = fetchAggFrom a2.resp1 now normalizeAggBasic
    rw [ha2]
  · unfold fetch_revenue_reporting_network
    rw [hb1, hb3]
    show fetchAggFrom b1.resp2 now normalizeAggNetwork
      = fetchAggFrom b2.resp1 now normalizeAggNetwork
    rw [hb2]

/-- Concrete 200 metadata response and CSV download for C6. -/
def c6Ok : ULResponse :=
  { status := 200, ad_revenue_report_url := some "https://s3/report.csv"
    url := none, fb_estimated_revenue_url := none }

def c6CsvF : String → CsvResponse :=
  fun _ => { status := 200
             text := { header := ["Revenue"], cells := [["1"]] } }

def c6AggOk : CsvResponse :=
  { status := 200
    text := { header := ["Day", "Impressions"]
              cells := [["2024-01-10", "7"]] } }

theorem c6_retry_on_429_transparent_witness :
    fetch_user_level_data
        ⟨⟨429, none, none, none⟩, c6Ok, c6CsvF⟩ 1 "android"
        "com.example.app" false 0
      = fetch_user_level_data ⟨c6Ok, c6Ok, c6CsvF⟩ 1 "android"
        "com.example.app" false 0
    ∧ fetch_revenue_reporting_basic ⟨⟨429, ⟨[], []⟩⟩, c6AggOk⟩ 1 0
      = fetch_revenue_reporting_basic ⟨c6AggOk, c6AggOk⟩ 1 0
    ∧ fetch_revenue_reporting_network ⟨⟨429, ⟨[], []⟩⟩, c6AggOk⟩ 1 0
      = fetch_revenue_reporting_network ⟨c6AggOk, c6AggOk⟩ 1 0 :=
  c6_retry_on_429_transparent
    ⟨⟨429, none, none, none⟩, c6Ok, c6CsvF⟩ ⟨c6Ok, c6Ok, c6CsvF⟩
    ⟨⟨429, ⟨[], []⟩⟩, c6AggOk⟩ ⟨c6AggOk, c6AggOk⟩
    ⟨⟨429, ⟨[], []⟩⟩, c6AggOk⟩ ⟨c6AggOk, c6AggOk⟩
    1 "android" "com.example.app" false 0
    rfl rfl rfl rfl rfl rfl rfl rfl rfl rfl

/-! ## C5 -/

/-- C5 (amended): the cell coercions the fetchers use are lenient — an
unparsable cell in a numeric column that gets `.fillna(0)` (impressions
and every aggregate numeric column) becomes 0, an unparsable boolean cell
becomes false, an unparsable timestamp cell becomes an explicit null —
but the user-level `revenue` column has no `.fillna(0)`: its unparsable
cells become an explicit null, not zero. -/
theorem c5_lenient_coercions (s : String)
    (hnum : parseNumeric s = none)
    (hb : pyLower s ≠ "true" ∧ pyLower s ≠ "1" ∧ pyLower s ≠ "yes")
    (hts : parseTimestampOk s = false) :
    fillna0 (toNumericCoerce (Value.vstr s)) = Value.vnum 0
    ∧ boolCoerce (Value.vstr s) = Value.vbool false
    ∧ whereNotNullValue (toDatetimeCoerce (Value.vstr s)) = Value.vnull
    ∧ whereNotNullValue (toNumericCoerce (Value.vstr s)) = Value.vnull := by
  obtain ⟨hb1, hb2, hb3⟩ := hb
  refine ⟨?_, ?_, ?_, ?_⟩
  · simp [toNumericCoerce, hnum, fillna0]
  · simp [boolCoerce, pyStrOf, hb1, hb2, hb3]
  · simp [toDatetimeCoerce, hts, whereNotNullValue]
  · simp [toNumericCoerce, hnum, whereNotNullValue]

theorem c5_lenient_coercions_witness :
    fillna0 (toNumericCoerce (Value.vstr "abc")) = Value.vnum 0
    ∧ boolCoerce (Value.vstr "abc") = Value.vbool false
    ∧ whereNotNullValue (toDatetimeCoerce (Value.vstr "abc")) = Value.vnull
    ∧ whereNotNullValue (toNumericCoerce (Value.vstr "abc")) = Value.vnull :=
  c5_lenient_coercions "abc" (by decide) ⟨by decide, by decide, by decide⟩
    (by decide)

/-- Concrete environment for C5: a user-level CSV whose `Revenue` and
`Impressions` cells are both unparsable. -/
def c5Env : ULEnv :=
  { resp1 := { status := 200
               ad_revenue_report_url := some "https://s3/report.csv"
               url := none, fb_estimated_revenue_url := none }
    resp2 := { status := 200, ad_revenue_report_url := none, url := none
               fb_estimated_revenue_url := none }
    csvResp := fun _ =>
      { status := 200
        text := { header := ["Revenue", "Impressions"]
                  cells := [["abc", "xyz"]] } } }

/-- C5 counterexample: running the real user-level pipeline on a row whose
revenue cell is unparsable yields `revenue = null`, not `revenue = 0`
(while the impressions cell, which has `.fillna(0)`, does become 0). -/
theorem c5_counterexample :
    ((fetch_user_level_data c5Env 1 "android" "com.example.app" false
        0).map (fun d => d.rows.map
          (fun r => (getCell r "revenue", getCell r "impressions"))))
      = some [(some Value.vnull, some (Value.vnum 0))]
    ∧ some Value.vnull ≠ some (Value.vnum 0) := by
  exact ⟨by decide, by decide⟩

/-! ## C8 -/

lemma contains_append (l1 l2 : List String) (a : String) :
    (l1 ++ l2).contains a = (l1.contains a || l2.contains a) := by
  induction l1 with
  | nil => simp
  | cons b l1 ih =>
      simp only [List.cons_append, List.contains_cons, ih, Bool.or_assoc]

/-- C8 counterexample: the aggregate fetchers only lower-case headers —
no trim, no space-to-underscore — so a basic aggregate CSV whose date
header is `" Day "` keeps the column `" day "` instead of the claim's
`"day"`, and the whole source then fails the `report_date` presence check
and returns `None`. -/
theorem c8_counterexample :
    pyLower " Day " = " day "
    ∧ pyNormalizeCol " Day " = "day"
    ∧ (" day " : String) ≠ "day"
    ∧ fetch_revenue_reporting_basic
        ⟨⟨200, ⟨[" Day "], [["2024-01-10"]]⟩⟩, ⟨200, ⟨[], []⟩⟩⟩ 1 0
      = none := by
  refine ⟨by decide, by decide, by decide, by decide⟩

lemma setCol_columns (df : DataFrame) (n : String) (v : Value)
    (h : df.columns.contains n = false) :
    (df.setCol n v).columns = df.columns ++ [n] := by
  unfold DataFrame.setCol
  rw [h]
  rfl

lemma mapCells_columns (df : DataFrame) (f : Value → Value) :
    (df.mapCells f).columns = df.columns := rfl

lemma columns_if_coerce (df : DataFrame) (c : Prop) [Decidable c]
    (n : String) (f : Value → Value) :
    (if c then df.coerceCol n f else df).columns = df.columns := by
  by_cases h : c
  · rw [if_pos h]
    rfl
  · rw [if_neg h]

lemma columns_if_setCol (df : DataFrame) (c : Prop) [Decidable c]
    (n : String) (v1 v2 : Value) :
    (if c then df.setCol n v1 else df.setCol n v2).columns
      = (df.setCol n v1).columns := by
  by_cases h : c
  · rw [if_pos h]
  · rw [if_neg h]
    unfold DataFrame.setCol
    cases hc : df.columns.contains n <;> rfl

/-- C8 (amended): the USER-LEVEL fetcher normalizes every incoming column
name by trim + lower-case + space-to-underscore (`pyNormalizeCol`) and
then synonym mapping (`mapULCol`), so — when none of the stamped metadata
names collide with an incoming column — the normalized frame's columns
are exactly the mapped header followed by the stamped metadata columns;
the header variants "Date", "date" and " Timestamp " all land in
`impression_timestamp`.  The AGGREGATE fetchers, by contrast, only
lower-case their headers (plus the `day → report_date` rename). -/
theorem c8_user_level_header_normalization
    (df0 : DataFrame) (date : Int) (plat app : String) (now : Int)
    (src : String)
    (hdisj : ∀ c ∈ ["report_date", "application", "package_name",
        "platform", "loaded_at", "data_source", "data_type"],
      ((df0.columns.map pyNormalizeCol).map mapULCol).contains c = false) :
    (normalizeUserLevel df0 date plat app now src).columns
      = (df0.columns.map pyNormalizeCol).map mapULCol
        ++ ["report_date", "application", "package_name", "platform",
            "loaded_at", "data_source", "data_type"]
    ∧ mapULCol (pyNormalizeCol "Date") = "impression_timestamp"
    ∧ mapULCol (pyNormalizeCol "date") = "impression_timestamp"
    ∧ mapULCol (pyNormalizeCol " Timestamp ") = "impression_timestamp"
    ∧ ∀ df1 : DataFrame,
        ((df1.renameCols pyLower).renameCols
          (fun c => if c == "day" then "report_date" else c)).columns
          = df1.columns.map
              (fun c => if pyLower c == "day" then "report_date"
                else pyLower c) := by
  have h1 := hdisj "report_date" (by simp)
  have h2 := hdisj "application" (by simp)
  have h3 := hdisj "package_name" (by simp)
  have h4 := hdisj "platform" (by simp)
  have h5 := hdisj "loaded_at" (by simp)
  have h6 := hdisj "data_source" (by simp)
  have h7 := hdisj "data_type" (by simp)
  refine ⟨?_, by decide, by decide, by decide, ?_⟩
  · have s1 : (((df0.renameCols pyNormalizeCol).renameCols mapULCol).setCol
        "report_date" (Value.vdate date)).columns
        = (df0.columns.map pyNormalizeCol).map mapULCol ++ ["report_date"] :=
      setCol_columns ((df0.renameCols pyNormalizeCol).renameCols mapULCol)
        "report_date" (Value.vdate date) h1
    have hc2 : (((df0.renameCols pyNormalizeCol).renameCols
        mapULCol).setCol "report_date"
        (Value.vdate date)).columns.contains "application" = false := by
      rw [s1, contains_append, h2]
      decide
    have s2 : ((((df0.renameCols pyNormalizeCol).renameCols
        mapULCol).setCol "report_date" (Value.vdate date)).setCol
        "application" (Value.vstr app)).columns
        = (df0.columns.map pyNormalizeCol).map mapULCol
          ++ ["report_date", "application"] := by
      rw [setCol_columns _ _ _ hc2, s1, List.append_assoc]
      rfl
    have hc3 : ((((df0.renameCols pyNormalizeCol).renameCols
        mapULCol).setCol "report_date" (Value.vdate date)).setCol
        "application" (Value.vstr app)).columns.contains "package_name"
        = false := by
      rw [s2, contains_append, h3]
      decide
    have s3 : (((((df0.renameCols pyNormalizeCol).renameCols
        mapULCol).setCol "report_date" (Value.vdate date)).setCol
        "application" (Value.vstr app)).setCol "package_name"
        (Value.vstr app)).columns
        = (df0.columns.map pyNormalizeCol).map mapULCol
          ++ ["report_date", "application", "package_name"] := by
      rw [setCol_columns _ _ _ hc3, s2, List.append_assoc]
      rfl
    have hc4 : (((((df0.renameCols pyNormalizeCol).renameCols
        mapULCol).setCol "report_date" (Value.vdate date)).setCol
        "application" (Value.vstr app)).setCol "package_name"
        (Value.vstr app)).columns.contains "platform" = false := by
      rw [s3, contains_append, h4]
      decide
    have s4 : ((((((df0.renameCols pyNormalizeCol).renameCols
        mapULCol).setCol "report_date" (Value.vdate date)).setCol
        "application" (Value.vstr app)).setCol "package_name"
        (Value.vstr app)).setCol "platform" (Value.vstr plat)).columns
        = (df0.columns.map pyNormalizeCol).map mapULCol
          ++ ["report_date", "application", "package_name", "platform"] := by
      rw [setCol_columns _ _ _ hc4, s3, List.append_assoc]
      rfl
    have hc5 : ((((((df0.renameCols pyNormalizeCol).renameCols
        mapULCol).setCol "report_date" (Value.vdate date)).setCol
        "application" (Value.vstr app)).setCol "package_name"
        (Value.vstr app)).setCol "platform"
        (Value.vstr plat)).columns.contains "loaded_at" = false := by
      rw [s4, contains_append, h5]
      decide
    have s5 : (((((((df0.renameCols pyNormalizeCol).renameCols
        mapULCol).setCol "report_date" (Value.vdate date)).setCol
        "application" (Value.vstr app)).setCol "package_name"
        (Value.vstr app)).setCol "platform" (Value.vstr plat)).setCol
        "loaded_at" (Value.vtime now)).columns
        = (df0.columns.map pyNormalizeCol).map mapULCol
          ++ ["report_date", "application", "package_name", "platform",
              "loaded_at"] := by
      rw [setCol_columns _ _ _ hc5, s4, List.append_assoc]
      rfl
    have hc6 : (((((((df0.renameCols pyNormalizeCol).renameCols
        mapULCol).setCol "report_date" (Value.vdate date)).setCol
        "application" (Value.vstr app)).setCol "package_name"
        (Value.vstr app)).setCol "platform" (Value.vstr plat)).setCol
        "loaded_at" (Value.vtime now)).columns.contains "data_source"
        = false := by
      rw [s5, contains_append, h6]
      decide
    have s6 : ((((((((df0.renameCols pyNormalizeCol).renameCols
        mapULCol).setCol "report_date" (Value.vdate date)).setCol
        "application" (Value.vstr app)).setCol "package_name"
        (Value.vstr app)).setCol "platform" (Value.vstr plat)).setCol
        "loaded_at" (Value.vtime now)).setCol "data_source"
        (Value.vstr src)).columns
        = (df0.columns.map pyNormalizeCol).map mapULCol
          ++ ["report_date", "application", "package_name", "platform",
              "loaded_at", "data_source"] := by
      rw [setCol_columns _ _ _ hc6, s5, List.append_assoc]
      rfl
    have hc7 : ((((((((df0.renameCols pyNormalizeCol).renameCols
        mapULCol).setCol "report_date" (Value.vdate date)).setCol
        "application" (Value.vstr app)).setCol "package_name"
        (Value.vstr app)).setCol "platform" (Value.vstr plat)).setCol
        "loaded_at" (Value.vtime now)).setCol "data_source"
        (Value.vstr src)).columns.contains "data_type" = false := by
      rw [s6, contains_append, h7]
      decide
    simp only [normalizeUserLevel]
    rw [mapCells_columns, columns_if_coerce, columns_if_coerce,
      columns_if_coerce, columns_if_setCol, setCol_columns _ _ _ hc7, s6,
      List.append_assoc]
    rfl
  · intro df1
    unfold DataFrame.renameCols
    rw [List.map_map]
    rfl

theorem c8_user_level_header_normalization_witness :
    (normalizeUserLevel
        { columns := ["Date", "Ad Unit ID", "Revenue"]
          rows := [] } 1 "android" "com.example.app" 0
        "ad_revenue_report_url").columns
      = (((["Date", "Ad Unit ID", "Revenue"] : List String).map
          pyNormalizeCol).map mapULCol)
        ++ ["report_date", "application", "package_name", "platform",
            "loaded_at", "data_source", "data_type"]
    ∧ mapULCol (pyNormalizeCol "Date") = "impression_timestamp"
    ∧ mapULCol (pyNormalizeCol "date") = "impression_timestamp"
    ∧ mapULCol (pyNormalizeCol " Timestamp ") = "impression_timestamp"
    ∧ ((DataFrame.renameCols (DataFrame.mk ["Day", "Impressions"] [])
          pyLower).renameCols
        (fun c => if c == "day" then "report_date" else c)).columns
      = (["Day", "Impressions"] : List String).map
          (fun c => if pyLower c == "day" then "report_date"
            else pyLower c) :=
  have h := c8_user_level_header_normalization
    { columns := ["Date", "Ad Unit ID", "Revenue"], rows := [] }
    1 "android" "com.example.app" 0 "ad_revenue_report_url" (by decide)
  ⟨h.1, h.2.1, h.2.2.1, h.2.2.2.1,
    h.2.2.2.2 (DataFrame.mk ["Day", "Impressions"] [])⟩

/-! ## C3 -/

lemma load_insert_fail (s : Store) (d : DataFrame) (table_name : String)
    (date : Int) (application platform : Option String)
    (h0 : d.rows ≠ [])
    (hex : check_data_exists s table_name date application platform true
      = false) :
    load_to_bigquery s (some d) table_name date false application platform
        ⟨true, true, false⟩
      = (s, LoadResult.written false false) := by
  have h0' : ¬ d.rows.length = 0 := by
    simpa [List.length_eq_zero] using h0
  rw [load_to_bigquery]
  simp [h0', hex]

lemma load_insert_ok (s : Store) (d : DataFrame) (table_name : String)
    (date : Int) (application platform : Option String)
    (h0 : d.rows ≠ [])
    (hex : check_data_exists s table_name date application platform true
      = false) :
    load_to_bigquery s (some d) table_name date false application platform
        ⟨true, true, true⟩
      = (s ++ d.rows.map (fun r => (table_name, r)),
         LoadResult.written false true) := by
  have h0' : ¬ d.rows.length = 0 := by
    simpa [List.length_eq_zero] using h0
  rw [load_to_bigquery]
  simp [h0', hex]

/-- C3 (amended): a storage append failure is caught INSIDE the loader
and only logged: the loader returns normally with the store unchanged, so
sibling writes for other keys and sources still run — but nothing is
reported to the caller, and `collect_daily_data` still counts the failed
(source, key) pair as a user-level SUCCESS in the run statistics.  Here
app `a`'s load job fails and app `b`'s succeeds: only `b`'s rows are
persisted, yet the stats say two successes and zero failures. -/
theorem c3_load_error_swallowed
    (store : Store) (a b : AppCfg) (denv : DayEnv) (dfa dfb : DataFrame)
    (date now : Int)
    (hfa : fetch_user_level_data (denv.ulEnv 0) date a.platform a.package
      false now = some dfa)
    (hfb : fetch_user_level_data (denv.ulEnv 1) date b.platform b.package
      false now = some dfb)
    (hla : denv.ulLoad 0 = ⟨true, true, false⟩)
    (hlb : denv.ulLoad 1 = ⟨true, true, true⟩)
    (hra : dfa.rows ≠ []) (hrb : dfb.rows ≠ [])
    (hea : check_data_exists store "user_level_ad_revenue" date
      (some a.package) (some a.platform) true = false)
    (heb : check_data_exists store "user_level_ad_revenue" date
      (some b.package) (some b.platform) true = false)
    (hbasic : fetch_revenue_reporting_basic denv.basicEnv date now = none)
    (hnet : fetch_revenue_reporting_network denv.networkEnv date now
      = none) :
    collect_daily_data store date now [a, b] false denv
      = (store ++ dfb.rows.map (fun r => ("user_level_ad_revenue", r)),
         some ⟨2, 0, 0, false, false⟩) := by
  have hload_a : load_to_bigquery store (some dfa) "user_level_ad_revenue"
      date false (some a.package) (some a.platform) (denv.ulLoad 0)
      = (store, LoadResult.written false false) := by
    rw [hla]
    exact load_insert_fail store dfa _ date _ _ hra hea
  have hload_b : load_to_bigquery store (some dfb) "user_level_ad_revenue"
      date false (some b.package) (some b.platform) (denv.ulLoad 1)
      = (store ++ dfb.rows.map (fun r => ("user_level_ad_revenue", r)),
         LoadResult.written false true) := by
    rw [hlb]
    exact load_insert_ok store dfb _ date _ _ hrb heb
  have hphase : userLevelPhase date now false denv [a, b] 0 store
      = (store ++ dfb.rows.map (fun r => ("user_level_ad_revenue", r)),
         2, 0, 0) := by
    simp only [userLevelPhase, hfa, hfb, hload_a, hload_b]
  unfold collect_daily_data
  simp only [List.isEmpty_cons, Bool.false_eq_true, if_false, hphase,
    hbasic, hnet]

/-- Concrete environment for C3: the fetch succeeds but the BigQuery load
job fails. -/
def c3Env : ULEnv :=
  { resp1 := { status := 200
               ad_revenue_report_url := some "https://s3/report.csv"
               url := none, fb_estimated_revenue_url := none }
    resp2 := { status := 200, ad_revenue_report_url := none, url := none
               fb_estimated_revenue_url := none }
    csvResp := fun _ =>
      { status := 200, text := { header := ["Revenue"], cells := [["1"]] } } }

def c3Day : DayEnv :=
  { ulEnv := fun _ => c3Env
    ulLoad := fun _ => ⟨true, true, false⟩
    basicEnv := ⟨⟨401, ⟨[], []⟩⟩, ⟨200, ⟨[], []⟩⟩⟩
    basicLoad := ⟨true, true, true⟩
    networkEnv := ⟨⟨401, ⟨[], []⟩⟩, ⟨200, ⟨[], []⟩⟩⟩
    networkLoad := ⟨true, true, true⟩ }

/-- C3 counterexample: a run where the only app's fetch succeeds but its
BigQuery load job fails ends with the store UNCHANGED (the batch was not
persisted) while the statistics report `user_level_success = 1` and
`user_level_failed = 0`: the load failure is not reported to the caller
and is not reflected in the run statistics, contradicting the claim. -/
theorem c3_counterexample :
    collect_daily_data [] 1 0 [⟨"android", "com.example.app"⟩] false c3Day
      = ([], some { user_level_success := 1, user_level_failed := 0
                    user_level_no_data := 0, revenue_basic_success := false
                    revenue_network_success := false }) := by
  decide

/-- The frames the two C3 witness apps fetch. -/
def c3dfA : DataFrame :=
  { columns := ["revenue", "report_date", "application", "package_name",
                "platform", "loaded_at", "data_source", "data_type"]
    rows := [[("revenue", Value.vnum 1), ("report_date", Value.vdate 1),
              ("application", Value.vstr "com.example.app"),
              ("package_name", Value.vstr "com.example.app"),
              ("platform", Value.vstr "android"),
              ("loaded_at", Value.vtime 0),
              ("data_source", Value.vstr "ad_revenue_report_url"),
              ("data_type", Value.vstr "impression")]] }

def c3dfB : DataFrame :=
  { columns := ["revenue", "report_date", "application", "package_name",
                "platform", "loaded_at", "data_source", "data_type"]
    rows := [[("revenue", Value.vnum 1), ("report_date", Value.vdate 1),
              ("application", Value.vstr "com.other.app"),
              ("package_name", Value.vstr "com.other.app"),
              ("platform", Value.vstr "android"),
              ("loaded_at", Value.vtime 0),
              ("data_source", Value.vstr "ad_revenue_report_url"),
              ("data_type", Value.vstr "impression")]] }

def c3Day2 : DayEnv :=
  { ulEnv := fun _ => c3Env
    ulLoad := fun i => if i = 0 then ⟨true, true, false⟩
      else ⟨true, true, true⟩
    basicEnv := ⟨⟨401, ⟨[], []⟩⟩, ⟨200, ⟨[], []⟩⟩⟩
    basicLoad := ⟨true, true, true⟩
    networkEnv := ⟨⟨401, ⟨[], []⟩⟩, ⟨200, ⟨[], []⟩⟩⟩
    networkLoad := ⟨true, true, true⟩ }

theorem c3_load_error_swallowed_witness :
    collect_daily_data [] 1 0
        [⟨"android", "com.example.app"⟩, ⟨"android", "com.other.app"⟩]
        false c3Day2
      = ([] ++ c3dfB.rows.map (fun r => ("user_level_ad_revenue", r)),
         some ⟨2, 0, 0, false, false⟩) :=
  c3_load_error_swallowed [] ⟨"android", "com.example.app"⟩
    ⟨"android", "com.other.app"⟩ c3Day2 c3dfA c3dfB 1 0
    (by decide) (by decide) (by decide) (by decide) (by decide) (by decide)
    (by decide) (by decide) (by decide) (by decide)

/-! ## C9 -/

lemma backfillLoop_spec (today now : Int) (apps : List AppCfg)
    (env : Nat → DayEnv) :
    ∀ (k : Nat) (store : Store),
      (backfillLoop today now apps env k store).2.1
          + (backfillLoop today now apps env k store).2.2.1 = k
      ∧ ((backfillLoop today now apps env k store).2.2.2).map Prod.fst
          = (List.range k).map (fun j => today - Int.ofNat k + Int.ofNat j)
      ∧ (backfillLoop today now apps env k store).2.1
          = (((backfillLoop today now apps env k store).2.2.2).filter
              (fun e => daySucceeded e.2)).length := by
  intro k
  induction k with
  | zero => intro store; exact ⟨rfl, rfl, rfl⟩
  | succ n ih =>
    intro store
    obtain ⟨ih1, ih2, ih3⟩ := ih (collect_daily_data store
      (today - Int.ofNat (n + 1)) now apps false (env (n + 1))).1
    have hfun : (fun j => today - Int.ofNat (n + 1) + Int.ofNat j)
        ∘ Nat.succ = fun j => today - Int.ofNat n + Int.ofNat j := by
      funext j
      show today - Int.ofNat (n + 1) + Int.ofNat (j + 1)
        = today - Int.ofNat n + Int.ofNat j
      simp only [Int.ofNat_eq_natCast]
      push_cast
      ring
    by_cases hs : daySucceeded (collect_daily_data store
        (today - Int.ofNat (n + 1)) now apps false (env (n + 1))).2
    · simp only [backfillLoop, hs, if_true]
      refine ⟨by omega, ?_, ?_⟩
      · rw [List.map_cons, ih2, List.range_succ_eq_map, List.map_cons,
          List.map_map, hfun]
        congr 1
        simp
      · rw [ih3, List.filter_cons,
          if_pos (show (fun e : Int × Option ULStats => daySucceeded e.2)
            (today - Int.ofNat (n + 1),
             (collect_daily_data store (today - Int.ofNat (n + 1)) now apps
               false (env (n + 1))).2) = true from hs),
          List.length_cons]
    · simp only [backfillLoop, hs, Bool.false_eq_true, if_false]
      refine ⟨by omega, ?_, ?_⟩
      · rw [List.map_cons, ih2, List.range_succ_eq_map, List.map_cons,
          List.map_map, hfun]
        congr 1
        simp
      · rw [ih3, List.filter_cons,
          if_neg (show ¬ (fun e : Int × Option ULStats => daySucceeded e.2)
            (today - Int.ofNat (n + 1),
             (collect_daily_data store (today - Int.ofNat (n + 1)) now apps
               false (env (n + 1))).2) = true from hs)]

/-- Concrete environment for C9: the only app's fetch returns a frame but
its BigQuery insert job fails, and both aggregate fetches fail with 401. -/
def c9Env : ULEnv :=
  { resp1 := { status := 200
               ad_revenue_report_url := some "https://s3/report.csv"
               url := none, fb_estimated_revenue_url := none }
    resp2 := { status := 200, ad_revenue_report_url := none, url := none
               fb_estimated_revenue_url := none }
    csvResp := fun _ =>
      { status := 200, text := { header := ["Revenue"], cells := [["1"]] } } }

def c9Day : DayEnv :=
  { ulEnv := fun _ => c9Env
    ulLoad := fun _ => ⟨true, true, false⟩
    basicEnv := ⟨⟨401, ⟨[], []⟩⟩, ⟨200, ⟨[], []⟩⟩⟩
    basicLoad := ⟨true, true, true⟩
    networkEnv := ⟨⟨401, ⟨[], []⟩⟩, ⟨200, ⟨[], []⟩⟩⟩
    networkLoad := ⟨true, true, true⟩ }

/-- C9 counterexample: in a one-day backfill where the only app's fetch
returns data but its load job FAILS (and both aggregate sources fail),
the final store is empty — no load of any source succeeded — yet the day
is counted successful (`success_days = 1`, `failed_days = 0`): the
success criterion the code applies is fetch-based
(`user_level_success > 0`, which corrected C3 shows counts fetched
sources even when their load failed), not the claim's load-based
criterion. -/
theorem c9_counterexample :
    backfill_data [] 1 10 0 [⟨"android", "com.example.app"⟩]
        (fun _ => c9Day)
      = ([], 1, 0,
         [(9, some { user_level_success := 1, user_level_failed := 0
                     user_level_no_data := 0
                     revenue_basic_success := false
                     revenue_network_success := false })]) := by
  decide

/-- C9 (amended): a backfill over `days` days with `force_update=false`
processes exactly the `days` dates preceding `today`, oldest first (the
per-day log records the ascending dates `today - days, …, today - 1`),
ends with `success_days + failed_days = days`, and counts a day
successful exactly when the day's statistics carry at least one success
indicator — `user_level_success > 0` or an aggregate success flag
(`daySucceeded`).  Those indicators record that the source's FETCH
returned data; whether its load succeeded is not consulted. -/
theorem c9_backfill_day_accounting
    (store : Store) (days : Nat) (today now : Int) (apps : List AppCfg)
    (env : Nat → DayEnv) :
    (backfill_data store days today now apps env).2.1
        + (backfill_data store days today now apps env).2.2.1 = days
    ∧ ((backfill_data store days today now apps env).2.2.2).map Prod.fst
        = (List.range days).map
            (fun j => today - Int.ofNat days + Int.ofNat j)
    ∧ (backfill_data store days today now apps env).2.1
        = (((backfill_data store days today now apps env).2.2.2).filter
            (fun e => daySucceeded e.2)).length := by
  unfold backfill_data
  exact backfillLoop_spec today now apps env days store

end Axon
